import Mathlib

/-!
Verification development for the volumeboostbot repository.

The repository is a client-side page with two core modules:
`WalletManager` (js/walletManager.js, shipped inside the pack as the second
document of src/js/transactionService.js) and `TransactionService`
(src/unnamed/part_002, the current native-token version per
NATIVE_TOKEN_UPDATE.md).  This file gives a shallow embedding of both
modules: the injected browser providers become explicit oracle records
(`EthProvider`, `SolProvider`, `Env`) whose fields record the outcome of
each awaited provider call, and each method becomes a pure Lean function
from the oracle and the current state to a result, the next state, and the
list of provider calls it issued.
-/

deriving instance DecidableEq for Except

namespace VolumeBoost

/-- Outcome record for the injected Ethereum-style provider
(`window.ethereum`).  Each `Except` field is the result the provider would
deliver for the corresponding awaited call. -/
structure EthProvider where
  isMetaMask : Bool
  isTrustWallet : Bool
  selectedAddress : Option String
  /-- result of `eth_requestAccounts` -/
  requestAccounts : Except String (List String)
  /-- result of the first `provider.getNetwork()` (the chain id) -/
  getNetwork : Except String Int
  /-- result of `wallet_switchEthereumChain` (error carries code and message) -/
  switchChain : Except (Int × String) Unit
  /-- result of `wallet_addEthereumChain` -/
  addChain : Except String Unit
  /-- result of `provider.getNetwork()` after a switch or add attempt -/
  getNetworkAfterSwitch : Except String Int
  deriving Repr, DecidableEq

/-- Outcome record for the injected Solana-style provider (`window.solana`). -/
structure SolProvider where
  isPhantom : Bool
  isConnected : Bool
  /-- result of `window.solana.connect()` (the public key as a string) -/
  connectRes : Except String String
  /-- result of `window.solana.connect({ onlyIfTrusted: true })` -/
  connectTrustedRes : Except String String
  deriving Repr, DecidableEq

/-- The ambient browser environment seen by `WalletManager`. -/
structure Env where
  ethereum : Option EthProvider
  solana : Option SolProvider
  /-- whether the user agent matches the Trust regular expression -/
  userAgentTrust : Bool
  /-- `navigator.onLine` -/
  onLine : Bool
  /-- `isMobileDevice()` from utils.js -/
  isMobile : Bool
  deriving Repr, DecidableEq

/-- The mutable fields of a `WalletManager` instance. -/
structure WalletState where
  publicKey : Option String
  connectedWalletType : Option String
  connecting : Bool
  /-- whether `this.solConnection` holds a Connection object -/
  solConnection : Bool
  listenersSetup : Bool
  deriving Repr, DecidableEq

/-- The state built by the `WalletManager` constructor. -/
def initialState : WalletState :=
  { publicKey := none, connectedWalletType := none, connecting := false,
    solConnection := false, listenersSetup := false }

/-- The distinct throw sites of `WalletManager`, one constructor per kind of
`Error` the source can raise; provider-raised errors keep their message. -/
inductive ConnectError where
  | alreadyConnecting
  | offline
  | extensionNotDetected (wallet : String)
  | unknownWallet (wallet : String)
  | noDeeplink (wallet : String)
  | connectTimeout
  | jsError (msg : String)
  deriving Repr, DecidableEq

/-- Provider calls the embedding records, used to decide which calls prompt
the user. -/
inductive ProviderCall where
  | ethRequestAccounts
  | ethGetNetwork
  | ethSwitchChain
  | ethAddChain
  | solanaConnect (onlyIfTrusted : Bool)
  deriving Repr, DecidableEq

/-- Which provider calls open a user-facing prompt: `eth_requestAccounts`
and a plain `solana.connect()` do; reads and trusted connects do not. -/
def promptsUser : ProviderCall → Bool
  | .ethRequestAccounts => true
  | .solanaConnect onlyIfTrusted => !onlyIfTrusted
  | _ => false

/-- The value returned by a successful connect: public key and network name. -/
structure ConnResult where
  publicKey : String
  network : String
  deriving Repr, DecidableEq

/-- Result triple of a `WalletManager` method: outcome, next state, list of
provider calls issued. -/
abbrev WMResult := Except ConnectError ConnResult × WalletState × List ProviderCall

/-- Embedding of `WalletManager.hasWalletExtension` (transactionService.js
lines 261-276). -/
def hasWalletExtension (env : Env) (walletName : String) : Bool :=
  let hasEthereum := env.ethereum.isSome
  let hasSolana := env.solana.isSome
  let hasTrust := hasEthereum &&
    ((env.ethereum.map (·.isTrustWallet)).getD false || env.userAgentTrust)
  if walletName = "MetaMask" then
    hasEthereum && (env.ethereum.map (·.isMetaMask)).getD false
  else if walletName = "Phantom" then
    hasSolana && (env.solana.map (·.isPhantom)).getD false
  else if walletName = "Trust" then
    hasTrust
  else
    false

/-- Embedding of `WalletManager.connectMetaMask` (lines 282-302).  When
`window.ethereum` is absent the property access on `undefined` raises a
TypeError, modelled as a `jsError`. -/
def connectMetaMask (env : Env) (s : WalletState) : WMResult :=
  match env.ethereum with
  | none => (.error (.jsError "TypeError: window.ethereum is undefined"), s, [])
  | some eth =>
    match eth.requestAccounts with
    | .error e => (.error (.jsError e), s, [.ethRequestAccounts])
    | .ok [] =>
      (.error (.jsError "MetaMask failed to provide accounts. Please unlock it."),
       s, [.ethRequestAccounts])
    | .ok (a :: _) =>
      match eth.getNetwork with
      | .error e => (.error (.jsError e), s, [.ethRequestAccounts, .ethGetNetwork])
      | .ok chainId =>
        if chainId ≠ 1 then
          (.error (.jsError "Please switch MetaMask to Ethereum Mainnet."),
           s, [.ethRequestAccounts, .ethGetNetwork])
        else
          (.ok { publicKey := a, network := "Ethereum" },
           { s with publicKey := some a, connectedWalletType := some "MetaMask" },
           [.ethRequestAccounts, .ethGetNetwork])

/-- Embedding of `WalletManager.connectPhantom` (lines 308-321). -/
def connectPhantom (env : Env) (s : WalletState) : WMResult :=
  match env.solana with
  | none => (.error (.jsError "TypeError: window.solana is undefined"), s, [])
  | some sol =>
    match sol.connectRes with
    | .error e => (.error (.jsError e), s, [.solanaConnect false])
    | .ok pk =>
      (.ok { publicKey := pk, network := "Solana" },
       { s with publicKey := some pk, connectedWalletType := some "Phantom",
                solConnection := true },
       [.solanaConnect false])

/-- The tail of `connectTrustWallet` after a switch or add attempt: the
re-check of the chain id (lines 367-378). -/
def trustRecheck (a : String) (s : WalletState) (trace : List ProviderCall)
    (chain1 : Int) : WMResult :=
  if chain1 ≠ 56 then
    (.error (.jsError "Please switch Trust Wallet to BNB Smart Chain."), s, trace)
  else
    (.ok { publicKey := a, network := "BNB Smart Chain" },
     { s with publicKey := some a, connectedWalletType := some "Trust" },
     trace)

/-- Embedding of `WalletManager.connectTrustWallet` (lines 327-379),
including the chain-switch and chain-add fallback; the post-switch chain
re-check is hoisted into `trustRecheck`. -/
def connectTrustWallet (env : Env) (s : WalletState) : WMResult :=
  match env.ethereum with
  | none => (.error (.jsError "TypeError: window.ethereum is undefined"), s, [])
  | some eth =>
    match eth.requestAccounts with
    | .error e => (.error (.jsError e), s, [.ethRequestAccounts])
    | .ok [] =>
      (.error (.jsError "Trust Wallet failed to provide accounts. Please unlock it."),
       s, [.ethRequestAccounts])
    | .ok (a :: _) =>
      match eth.getNetwork with
      | .error e => (.error (.jsError e), s, [.ethRequestAccounts, .ethGetNetwork])
      | .ok chain0 =>
        if chain0 = 56 then
          (.ok { publicKey := a, network := "BNB Smart Chain" },
           { s with publicKey := some a, connectedWalletType := some "Trust" },
           [.ethRequestAccounts, .ethGetNetwork])
        else
          match eth.switchChain with
          | .ok _ =>
            match eth.getNetworkAfterSwitch with
            | .error e =>
              (.error (.jsError e), s,
               [.ethRequestAccounts, .ethGetNetwork, .ethSwitchChain, .ethGetNetwork])
            | .ok c =>
              trustRecheck a s
                [.ethRequestAccounts, .ethGetNetwork, .ethSwitchChain, .ethGetNetwork] c
          | .error (code, msg) =>
            if code = 4902 then
              match eth.addChain with
              | .error e =>
                (.error (.jsError e), s,
                 [.ethRequestAccounts, .ethGetNetwork, .ethSwitchChain, .ethAddChain])
              | .ok _ =>
                match eth.getNetworkAfterSwitch with
                | .error e =>
                  (.error (.jsError e), s,
                   [.ethRequestAccounts, .ethGetNetwork, .ethSwitchChain, .ethAddChain,
                    .ethGetNetwork])
                | .ok c =>
                  trustRecheck a s
                    [.ethRequestAccounts, .ethGetNetwork, .ethSwitchChain, .ethAddChain,
                     .ethGetNetwork] c
            else
              (.error (.jsError ("Failed to switch to BNB Smart Chain: " ++ msg)),
               s, [.ethRequestAccounts, .ethGetNetwork, .ethSwitchChain])

/-- Dispatch on the wallet name, mirroring the `switch` in `connect`
(lines 409-421); an unrecognised name hits the `default` throw. -/
def connectByName (walletName : String) (env : Env) (s : WalletState) : WMResult :=
  if walletName = "MetaMask" then connectMetaMask env s
  else if walletName = "Phantom" then connectPhantom env s
  else if walletName = "Trust" then connectTrustWallet env s
  else (.error (.unknownWallet walletName), s, [])

/-- Modelled from the spec: `js/config.js` is not included under `src/`;
the architecture notes (src/unnamed/part_001) document `CONFIG.DEEP_LINKS`
as holding a mobile deep-link URL for each of the three wallets. -/
def DEEP_LINKS (walletName : String) : Option String :=
  if walletName = "MetaMask" then some "https://metamask.app.link/dapp/site"
  else if walletName = "Phantom" then some "https://phantom.app/ul/browse/site"
  else if walletName = "Trust" then some "https://link.trustwallet.com/open_url"
  else none

/-- The per-tick provider check of the mobile polling loop
(lines 441, 451, 461). -/
def mobileProviderReady (e : Env) (walletName : String) : Bool :=
  if walletName = "MetaMask" then (e.ethereum.map (·.isMetaMask)).getD false
  else if walletName = "Phantom" then (e.solana.map (·.isPhantom)).getD false
  else if walletName = "Trust" then
    e.ethereum.isSome && ((e.ethereum.map (·.isTrustWallet)).getD false || e.userAgentTrust)
  else false

/-- Embedding of the mobile deep-link polling loop (lines 439-482).  The
`setInterval` callback runs once a second, at seconds `t, t+1, ...`; the
30-second `setTimeout` rejects with the timeout error when the fuel (number
of remaining poll ticks before the timeout fires) runs out.  `τ` gives the
browser environment at each second, since the provider may be injected
later.  The third component is the elapsed time in seconds when the promise
settles; the timeout handler always fires at second 30. -/
def pollRun (walletName : String) (τ : Nat → Env) (s : WalletState) :
    Nat → Nat → Except ConnectError ConnResult × WalletState × Nat
  | _, 0 => (.error .connectTimeout, { s with connecting := false }, 30)
  | t, fuel + 1 =>
    if mobileProviderReady (τ t) walletName then
      ((connectByName walletName (τ t) s).1,
       { (connectByName walletName (τ t) s).2.1 with connecting := false }, t)
    else
      pollRun walletName τ s (t + 1) fuel

/-- Embedding of `WalletManager.connect` (lines 387-488).  `env` is the
environment at call time and `τ` the environment at each later second (used
only on the mobile polling path).  The third component is the elapsed time
in seconds when the call settles (0 for the non-polling paths). -/
def connect (walletName : String) (env : Env) (τ : Nat → Env) (s : WalletState) :
    Except ConnectError ConnResult × WalletState × Nat :=
  if s.connecting then (.error .alreadyConnecting, s, 0)
  else if !env.onLine then (.error .offline, s, 0)
  else
    if !env.isMobile || hasWalletExtension env walletName then
      if !hasWalletExtension env walletName then
        (.error (.extensionNotDetected walletName), { s with connecting := false }, 0)
      else
        ((connectByName walletName env { s with connecting := true }).1,
         { (connectByName walletName env { s with connecting := true }).2.1 with
             connecting := false }, 0)
    else
      match DEEP_LINKS walletName with
      | none => (.error (.noDeeplink walletName), { s with connecting := false }, 0)
      | some _ => pollRun walletName τ { s with connecting := true } 1 30

/-- The MetaMask and Trust branch of `checkExistingConnection`
(lines 516-537): when the provider exposes a `selectedAddress` the source
assigns it to `this.publicKey` and then checks the chain id. -/
def checkEthExisting (env : Env) (s : WalletState) (trace0 : List ProviderCall) :
    Except ConnectError (Option (String × String × String)) × WalletState × List ProviderCall :=
  match env.ethereum with
  | some eth =>
    match eth.selectedAddress with
    | some addr =>
      match eth.getNetwork with
      | .error e => (.error (.jsError e), s, trace0 ++ [.ethGetNetwork])
      | .ok chain =>
        -- the source assigns `this.publicKey = window.ethereum.selectedAddress`
        -- once, before the chain checks; every leaf below carries that
        -- assignment
        if eth.isMetaMask && chain = 1 then
          (.ok (some (addr, "Ethereum", "MetaMask")),
           { s with publicKey := some addr, connectedWalletType := some "MetaMask" },
           trace0 ++ [.ethGetNetwork])
        else if (eth.isTrustWallet || env.userAgentTrust) && chain = 56 then
          (.ok (some (addr, "BNB Smart Chain", "Trust")),
           { s with publicKey := some addr, connectedWalletType := some "Trust" },
           trace0 ++ [.ethGetNetwork])
        else
          (.ok none, { s with publicKey := some addr }, trace0 ++ [.ethGetNetwork])
    | none => (.ok none, s, trace0)
  | none => (.ok none, s, trace0)

/-- Embedding of `WalletManager.checkExistingConnection` (lines 494-540).
The Phantom branch swallows its own error; the Ethereum branch is
`checkEthExisting`. -/
def checkExistingConnection (env : Env) (s : WalletState) :
    Except ConnectError (Option (String × String × String)) × WalletState × List ProviderCall :=
  match env.solana with
  | some sol =>
    if sol.isPhantom && sol.isConnected then
      match sol.connectTrustedRes with
      | .ok pk =>
        (.ok (some (pk, "Solana", "Phantom")),
         { s with publicKey := some pk, connectedWalletType := some "Phantom",
                  solConnection := true },
         [.solanaConnect true])
      | .error _ => checkEthExisting env s [.solanaConnect true]
    else checkEthExisting env s []
  | none => checkEthExisting env s []

/-- Whether the environment holds a previously-trusted session for
`checkExistingConnection` to find: a Phantom provider that is connected and
answers the trusted connect, or an Ethereum-style provider exposing a
`selectedAddress`. -/
def hasTrustedSession (env : Env) : Bool :=
  (match env.solana with
   | some sol =>
     sol.isPhantom && sol.isConnected &&
       (match sol.connectTrustedRes with | .ok _ => true | .error _ => false)
   | none => false) ||
  (match env.ethereum with
   | some eth => eth.selectedAddress.isSome
   | none => false)

/-- Embedding of `WalletManager.disconnect` (lines 592-596). -/
def disconnect (s : WalletState) : WalletState :=
  { s with publicKey := none, connectedWalletType := none, solConnection := false }

/-- The spec invariant on connection state: the account is set iff the
provider kind is set. -/
def stateInv (s : WalletState) : Prop :=
  s.publicKey.isSome = s.connectedWalletType.isSome

instance (s : WalletState) : Decidable (stateInv s) := by
  unfold stateInv; infer_instance

/-!
Embedding of `TransactionService` from src/unnamed/part_002, the current
native-token version of js/transactionService.js (NATIVE_TOKEN_UPDATE.md
documents the switch from USD amounts to native amounts; only part_002
carries the `gasLimit: 21000` and the confirmation error check described by
the spec).  Amounts are modelled as rationals: at the concrete amounts the
claims use (0.5 and 0.1) the double-precision products computed by the
source are exact, so the rational model agrees with the JavaScript values.
-/

/-- Modelled from the spec: the Solana destination address from
`CONFIG.BOOST_ADDRESSES` (config.js is not under `src/`; the value is the
one the spec's end-to-end scenario A records). -/
def BOOST_ADDRESS_solana : String := "73F2hbzhk7ZuTSSYTSbemddFasVrW8Av5FD9PeMVmxA7"

/-- Modelled from the spec: the Ethereum destination address from
`CONFIG.BOOST_ADDRESSES` (the value the spec's end-to-end scenario B
records). -/
def BOOST_ADDRESS_ethereum : String := "0xeA54572eBA790E31f97e1D6f941D7427276688C3"

/-- `LAMPORTS_PER_SOL` from @solana/web3.js. -/
def LAMPORTS_PER_SOL : Int := 1000000000

/-- The lamports computation of `boostWithPhantom` (part_002 line 90):
`Math.floor(amount * LAMPORTS_PER_SOL)` (floor toward negative infinity,
like `Math.floor`). -/
def phantomLamports (amount : ℚ) : Int :=
  ⌊amount * (LAMPORTS_PER_SOL : ℚ)⌋

/-- The system-program transfer instruction built by `boostWithPhantom`
(part_002 lines 103-107). -/
structure TransferInstruction where
  fromPubkey : String
  toPubkey : String
  lamports : Int
  deriving Repr, DecidableEq

/-- Oracle for the awaited calls of the Solana transaction path. -/
structure SolTxEnv where
  /-- whether `window.solana` is present -/
  solanaPresent : Bool
  /-- result of `getLatestBlockhash` (blockhash, lastValidBlockHeight) -/
  blockhash : Except String (String × Nat)
  /-- result of `window.solana.signTransaction` -/
  signTx : Except String Unit
  /-- result of `connection.sendTransaction` (the signature) -/
  sendTx : Except String String
  /-- result of `connection.confirmTransaction`: an outer `.error` is a thrown
  rejection; `.ok (some e)` means `confirmation.value.err` was the error
  object whose `JSON.stringify` rendering is `e`; `.ok none` means no error -/
  confirmRes : Except String (Option String)
  deriving Repr, DecidableEq

/-- Embedding of `TransactionService.boostWithPhantom` (part_002 lines
80-152).  Returns the outcome together with the transfer instruction the
call built (or `none` when it threw before building one). -/
def boostWithPhantom (env : SolTxEnv) (amount : ℚ) (publicKey : String) :
    Except String String × Option TransferInstruction :=
  if !env.solanaPresent then (.error "Phantom wallet not found", none)
  else
    let lamports := phantomLamports amount
    let instruction : TransferInstruction :=
      { fromPubkey := publicKey, toPubkey := BOOST_ADDRESS_solana, lamports := lamports }
    match env.blockhash with
    | .error e => (.error e, some instruction)
    | .ok _ =>
      match env.signTx with
      | .error e => (.error e, some instruction)
      | .ok _ =>
        match env.sendTx with
        | .error e => (.error e, some instruction)
        | .ok signature =>
          match env.confirmRes with
          | .error e => (.error e, some instruction)
          | .ok (some err) =>
            (.error ("Transaction failed: " ++ err), some instruction)
          | .ok none => (.ok signature, some instruction)

/-- Digit predicate for the decimal parser. -/
def isDecDigit (c : Char) : Bool := '0' ≤ c && c ≤ '9'

/-- Value of a list of decimal digit characters. -/
def digitsToNat (l : List Char) : Nat :=
  l.foldl (fun acc c => 10 * acc + (c.toNat - '0'.toNat)) 0

/-- Embedding of `ethers.parseEther`: parse a decimal string into an exact
wei amount (18 decimals), `none` on a malformed string or more than 18
fractional digits — the cases where ethers throws. -/
def parseEther (s : String) : Option Int :=
  let cs := s.data
  let signed : Int × List Char :=
    match cs with
    | '-' :: rest => (-1, rest)
    | _ => (1, cs)
  let intPart := signed.2.takeWhile (fun c => c ≠ '.')
  let rest := signed.2.dropWhile (fun c => c ≠ '.')
  let fracPart : Option (List Char) :=
    match rest with
    | [] => some []
    | '.' :: f => if f.contains '.' then none else some f
    | _ => none
  match fracPart with
  | none => none
  | some f =>
    if intPart ≠ [] && intPart.all isDecDigit && f.all isDecDigit && f.length ≤ 18 then
      some (signed.1 * ((digitsToNat intPart : Int) * 10 ^ 18 +
            (digitsToNat f : Int) * 10 ^ (18 - f.length)))
    else none

/-- The transaction request `boostWithMetaMask` hands to the signer
(part_002 lines 59-63). -/
structure EthTxRequest where
  toAddr : String
  value : Int
  gasLimit : Nat
  deriving Repr, DecidableEq

/-- Oracle for the awaited calls of the Ethereum transaction path. -/
structure EthTxEnv where
  /-- whether `window.ethereum` is present -/
  ethereumPresent : Bool
  /-- result of `signer.sendTransaction` (the transaction hash) -/
  sendTxRes : Except String String
  /-- result of `tx.wait()` (the receipt hash) -/
  waitRes : Except String String
  deriving Repr, DecidableEq

/-- Embedding of `TransactionService.boostWithMetaMask` (part_002 lines
39-72).  The source stringifies the amount (`amount.toString()`) before
handing it to `ethers.parseEther`, so the model takes that string.  Returns
the outcome together with the transaction request passed to the signer (or
`none` when the call threw before building one). -/
def boostWithMetaMask (env : EthTxEnv) (amountStr : String) :
    Except String String × Option EthTxRequest :=
  if !env.ethereumPresent then (.error "MetaMask not found", none)
  else
    match parseEther amountStr with
    | none => (.error "invalid decimal value", none)
    | some wei =>
      let req : EthTxRequest :=
        { toAddr := BOOST_ADDRESS_ethereum, value := wei, gasLimit := 21000 }
      match env.sendTxRes with
      | .error e => (.error e, some req)
      | .ok _ =>
        match env.waitRes with
        | .error e => (.error e, some req)
        | .ok receiptHash => (.ok receiptHash, some req)

/-!
Event-listener registration (`WalletManager.setupEventListeners`,
transactionService.js lines 546-587).  Listener registrations are modelled
as a count of registered `accountsChanged` / `accountChanged` handlers per
provider; every registered handler runs the same comparison closure, so the
number of callback firings for one provider event is the handler count when
the reported account genuinely differs, and zero otherwise.
-/

/-- Registered provider-level listeners. -/
structure ListenerState where
  ethAccountsHandlers : Nat
  solAccountHandlers : Nat
  deriving Repr, DecidableEq

/-- Embedding of `WalletManager.setupEventListeners`: a no-op when
`listenersSetup` is already set; otherwise registers one handler on each
present provider and sets the flag. -/
def setupEventListeners (env : Env) (s : WalletState) (l : ListenerState) :
    WalletState × ListenerState :=
  if s.listenersSetup then (s, l)
  else
    let l1 := if env.ethereum.isSome then
      { l with ethAccountsHandlers := l.ethAccountsHandlers + 1 } else l
    let l2 := if env.solana.isSome then
      { l1 with solAccountHandlers := l1.solAccountHandlers + 1 } else l1
    ({ s with listenersSetup := true }, l2)

/-- Number of times the account-change callback fires when the Ethereum
provider emits `accountsChanged` with `accounts`: each registered handler
compares `accounts[0]?.toLowerCase()` with the tracked key lowercased and
invokes the callback only on a genuine change (lines 553-563). -/
def ethAccountsChangedFirings (s : WalletState) (l : ListenerState)
    (accounts : List String) : Nat :=
  let newAccount : Option String := accounts.head?.map (fun a => a.toLower)
  let currentAccount : Option String := s.publicKey.map (fun a => a.toLower)
  if newAccount ≠ currentAccount then l.ethAccountsHandlers else 0

/-- Number of times the account-change callback fires when the Solana
provider emits `accountChanged` with `newKey` (lines 573-583). -/
def solAccountChangedFirings (s : WalletState) (l : ListenerState)
    (newKey : Option String) : Nat :=
  if newKey ≠ s.publicKey then l.solAccountHandlers else 0


/-- A desktop environment with no injected providers. -/
def envNoProviders : Env :=
  { ethereum := none, solana := none, userAgentTrust := false,
    onLine := true, isMobile := false }

/-- A mobile environment with no injected providers. -/
def envMobileNoProviders : Env :=
  { ethereum := none, solana := none, userAgentTrust := false,
    onLine := true, isMobile := true }

/-- A desktop environment with no network connectivity. -/
def envOffline : Env :=
  { ethereum := none, solana := none, userAgentTrust := false,
    onLine := false, isMobile := false }

/-- A MetaMask provider with a selected address that is sitting on chain 56
rather than Ethereum mainnet. -/
def envMetaMaskWrongChain : Env :=
  { ethereum := some
      { isMetaMask := true, isTrustWallet := false,
        selectedAddress := some "0xeA54572eBA790E31f97e1D6f941D7427276688C3",
        requestAccounts := .ok ["0xeA54572eBA790E31f97e1D6f941D7427276688C3"],
        getNetwork := .ok 56, switchChain := .ok (), addChain := .ok (),
        getNetworkAfterSwitch := .ok 56 },
    solana := none, userAgentTrust := false, onLine := true, isMobile := false }

/-- A Phantom provider holding a previously-trusted session. -/
def envPhantomTrusted : Env :=
  { ethereum := none,
    solana := some
      { isPhantom := true, isConnected := true,
        connectRes := .ok "PhantomKey1111111111111111111111111111111111",
        connectTrustedRes := .ok "PhantomKey1111111111111111111111111111111111" },
    userAgentTrust := false, onLine := true, isMobile := false }

/-- An environment where MetaMask and Phantom are both injected and every
provider call succeeds. -/
def envBothProviders : Env :=
  { ethereum := some
      { isMetaMask := true, isTrustWallet := false, selectedAddress := none,
        requestAccounts := .ok ["0xeA54572eBA790E31f97e1D6f941D7427276688C3"],
        getNetwork := .ok 1, switchChain := .ok (), addChain := .ok (),
        getNetworkAfterSwitch := .ok 1 },
    solana := some
      { isPhantom := true, isConnected := false,
        connectRes := .ok "PhantomKey1111111111111111111111111111111111",
        connectTrustedRes := .error "User rejected the request." },
    userAgentTrust := false, onLine := true, isMobile := false }

/-- A Solana transaction oracle where every provider call succeeds and the
confirmation reports no error. -/
def solTxOkEnv : SolTxEnv :=
  { solanaPresent := true,
    blockhash := .ok ("Blockhash1111111111111111111111111111111111", 1000),
    signTx := .ok (), sendTx := .ok "Signature11111111111111111111111111111111111",
    confirmRes := .ok none }

/-- A Solana transaction oracle whose confirmation reports an error object
(stringified as the given detail). -/
def solTxConfirmErrEnv : SolTxEnv :=
  { solanaPresent := true,
    blockhash := .ok ("Blockhash1111111111111111111111111111111111", 1000),
    signTx := .ok (), sendTx := .ok "Signature11111111111111111111111111111111111",
    confirmRes := .ok (some "InstructionError: custom program error 1") }

/-- An Ethereum transaction oracle where the send and wait both succeed. -/
def ethTxOkEnv : EthTxEnv :=
  { ethereumPresent := true,
    sendTxRes := .ok "0x5c77aabb", waitRes := .ok "0x5c77aabb" }

theorem connectMetaMask_cases (env : Env) (s : WalletState) :
    (∃ e tr, connectMetaMask env s = (.error e, s, tr)) ∨
    (∃ pk r tr, connectMetaMask env s =
      (.ok r, { s with publicKey := some pk, connectedWalletType := some "MetaMask" }, tr)) := by
  unfold connectMetaMask
  repeat' split
  all_goals first
    | exact Or.inl ⟨_, _, rfl⟩
    | exact Or.inr ⟨_, _, _, rfl⟩

theorem connectPhantom_cases (env : Env) (s : WalletState) :
    (∃ e tr, connectPhantom env s = (.error e, s, tr)) ∨
    (∃ pk r tr, connectPhantom env s =
      (.ok r, { s with publicKey := some pk, connectedWalletType := some "Phantom",
                       solConnection := true }, tr)) := by
  unfold connectPhantom
  repeat' split
  all_goals first
    | exact Or.inl ⟨_, _, rfl⟩
    | exact Or.inr ⟨_, _, _, rfl⟩

theorem connectTrustWallet_cases (env : Env) (s : WalletState) :
    (∃ e tr, connectTrustWallet env s = (.error e, s, tr)) ∨
    (∃ pk r tr, connectTrustWallet env s =
      (.ok r, { s with publicKey := some pk, connectedWalletType := some "Trust" }, tr)) := by
  unfold connectTrustWallet trustRecheck
  repeat' split
  all_goals first
    | exact Or.inl ⟨_, _, rfl⟩
    | exact Or.inr ⟨_, _, _, rfl⟩



theorem connectByName_cases (w : String) (env : Env) (s : WalletState) :
    (∃ e tr, connectByName w env s = (.error e, s, tr)) ∨
    (∃ pk wt r tr s', connectByName w env s = (.ok r, s', tr) ∧
      s'.publicKey = some pk ∧ s'.connectedWalletType = some wt) := by
  unfold connectByName
  split
  · rcases connectMetaMask_cases env s with ⟨e, tr, h⟩ | ⟨pk, r, tr, h⟩
    · exact Or.inl ⟨e, tr, h⟩
    · exact Or.inr ⟨pk, "MetaMask", r, tr,
        { s with publicKey := some pk, connectedWalletType := some "MetaMask" }, h, rfl, rfl⟩
  split
  · rcases connectPhantom_cases env s with ⟨e, tr, h⟩ | ⟨pk, r, tr, h⟩
    · exact Or.inl ⟨e, tr, h⟩
    · exact Or.inr ⟨pk, "Phantom", r, tr,
        { s with publicKey := some pk, connectedWalletType := some "Phantom",
                 solConnection := true }, h, rfl, rfl⟩
  split
  · rcases connectTrustWallet_cases env s with ⟨e, tr, h⟩ | ⟨pk, r, tr, h⟩
    · exact Or.inl ⟨e, tr, h⟩
    · exact Or.inr ⟨pk, "Trust", r, tr,
        { s with publicKey := some pk, connectedWalletType := some "Trust" }, h, rfl, rfl⟩
  exact Or.inl ⟨_, _, rfl⟩

theorem connectByName_error_state (w : String) (env : Env) (s : WalletState)
    (e : ConnectError) (h : (connectByName w env s).1 = .error e) :
    (connectByName w env s).2.1 = s := by
  rcases connectByName_cases w env s with ⟨e2, tr, hc⟩ | ⟨pk, wt, r, tr, s', hc, -, -⟩
  · rw [hc]
  · rw [hc] at h ⊢; cases h

theorem connectByName_inv (w : String) (env : Env) (s : WalletState)
    (h : stateInv s) : stateInv (connectByName w env s).2.1 := by
  rcases connectByName_cases w env s with ⟨e2, tr, hc⟩ | ⟨pk, wt, r, tr, s', hc, h1, h2⟩
  · rw [hc]; exact h
  · rw [hc]; simp [stateInv, h1, h2]

theorem pollRun_fields (w : String) (τ : Nat → Env) (s : WalletState) :
    ∀ fuel t, (∀ e, ((pollRun w τ s t fuel).1 = .error e →
        (pollRun w τ s t fuel).2.1.publicKey = s.publicKey ∧
        (pollRun w τ s t fuel).2.1.connectedWalletType = s.connectedWalletType)) ∧
      (stateInv s → stateInv (pollRun w τ s t fuel).2.1) := by
  intro fuel
  induction fuel with
  | zero =>
    intro t
    constructor
    · intro e he
      unfold pollRun
      constructor
      · rfl
      · rfl
    · intro h
      exact h
  | succ n ih =>
    intro t
    unfold pollRun
    split
    · constructor
      · intro e he
        have hs := connectByName_error_state w (τ t) s e he
        rw [hs]
        exact ⟨rfl, rfl⟩
      · intro h
        have hi := connectByName_inv w (τ t) s h
        unfold stateInv at hi ⊢
        exact hi
    · exact ih (t + 1)



theorem pollRun_never_ready (w : String) (τ : Nat → Env) (s : WalletState)
    (h : ∀ t, mobileProviderReady (τ t) w = false) :
    ∀ fuel t, pollRun w τ s t fuel =
      (.error .connectTimeout, { s with connecting := false }, 30) := by
  intro fuel
  induction fuel with
  | zero => intro t; unfold pollRun; rfl
  | succ n ih =>
    intro t
    unfold pollRun
    rw [h t]
    simp only [Bool.false_eq_true, if_false]
    exact ih (t + 1)

theorem connect_inv (w : String) (env : Env) (τ : Nat → Env) (s : WalletState)
    (h : stateInv s) : stateInv (connect w env τ s).2.1 := by
  unfold connect
  split
  · exact h
  split
  · exact h
  split
  · split
    · exact h
    · exact connectByName_inv w env { s with connecting := true } h
  · split
    · exact h
    · exact (pollRun_fields w τ { s with connecting := true } 30 1).2 h

theorem connect_error_fields (w : String) (env : Env) (τ : Nat → Env) (s : WalletState)
    (e : ConnectError) (he : (connect w env τ s).1 = .error e) :
    (connect w env τ s).2.1.publicKey = s.publicKey ∧
    (connect w env τ s).2.1.connectedWalletType = s.connectedWalletType := by
  by_cases h1 : s.connecting = true
  · constructor <;> simp [connect, h1]
  · by_cases h2 : env.onLine = true
    · by_cases h3 : (!env.isMobile || hasWalletExtension env w) = true
      · by_cases h4 : hasWalletExtension env w = true
        · have he' : (connectByName w env { s with connecting := true }).1 = .error e := by
            simpa [connect, h1, h2, h3, h4] using he
          have hs := connectByName_error_state w env { s with connecting := true } e he'
          constructor <;> simp [connect, h1, h2, h3, h4, hs]
        · rw [Bool.not_eq_true] at h4
          have h5 : env.isMobile = false := by simpa [h4] using h3
          constructor <;> simp [connect, h1, h2, h4, h5]
      · rcases hd : DEEP_LINKS w with _ | d
        · constructor <;> simp [connect, h1, h2, h3, hd]
        · have he' : (pollRun w τ { s with connecting := true } 1 30).1 = .error e := by
            simpa [connect, h1, h2, h3, hd] using he
          have hp := (pollRun_fields w τ { s with connecting := true } 30 1).1 e he'
          constructor
          · simpa [connect, h1, h2, h3, hd] using hp.1
          · simpa [connect, h1, h2, h3, hd] using hp.2
    · constructor <;> simp [connect, h1, h2]



theorem checkEthExisting_trace (env : Env) (s : WalletState) (trace0 : List ProviderCall)
    (h : trace0.all (fun c => !(promptsUser c)) = true) :
    ((checkEthExisting env s trace0).2.2.all fun c => !(promptsUser c)) = true := by
  unfold checkEthExisting
  repeat' split
  all_goals first
    | exact h
    | (rw [List.all_append, h]; rfl)

theorem checkExistingConnection_no_prompt (env : Env) (s : WalletState) :
    ((checkExistingConnection env s).2.2.all fun c => !(promptsUser c)) = true := by
  unfold checkExistingConnection
  repeat' split
  all_goals first
    | rfl
    | exact checkEthExisting_trace env s [.solanaConnect true] (by rfl)
    | exact checkEthExisting_trace env s [] (by rfl)

theorem checkEthExisting_none (env : Env) (s : WalletState) (tr : List ProviderCall)
    (hsel : (match env.ethereum with
      | some eth => eth.selectedAddress.isSome
      | none => false) = false) :
    (checkEthExisting env s tr).1 = .ok none := by
  unfold checkEthExisting
  rcases henv : env.ethereum with _ | eth
  · simp only [henv]
  · simp only [henv] at hsel
    rcases hs2 : eth.selectedAddress with _ | addr
    · simp only [henv, hs2]
    · simp [hs2] at hsel

theorem checkExistingConnection_none (env : Env) (s : WalletState)
    (h : hasTrustedSession env = false) :
    (checkExistingConnection env s).1 = .ok none := by
  have hparts := Bool.or_eq_false_iff.mp (by unfold hasTrustedSession at h; exact h)
  have hsel := hparts.2
  have hphant := hparts.1
  unfold checkExistingConnection
  rcases hsol : env.solana with _ | sol
  · simp only [hsol]
    exact checkEthExisting_none env s [] hsel
  · simp only [hsol] at hphant
    simp only [hsol]
    by_cases hpc : (sol.isPhantom && sol.isConnected) = true
    · rw [hpc]
      simp only [if_true]
      rcases hct : sol.connectTrustedRes with e | pk
      · simp only [hct]
        exact checkEthExisting_none env s [.solanaConnect true] hsel
      · rw [hct] at hphant
        rw [Bool.and_eq_false_iff] at hphant
        rcases hphant with h2 | h2
        · rw [h2] at hpc; cases hpc
        · cases h2
    · rw [Bool.not_eq_true] at hpc
      rw [hpc]
      simp only [Bool.false_eq_true, if_false]
      exact checkEthExisting_none env s [] hsel

theorem checkExistingConnection_cases (env : Env) (s : WalletState) :
    (∃ tr, checkExistingConnection env s = (.ok none, s, tr)) ∨
    (∃ e tr, checkExistingConnection env s = (.error e, s, tr)) ∨
    (∃ a tr, checkExistingConnection env s = (.ok none, { s with publicKey := some a }, tr)) ∨
    (∃ r s' tr, checkExistingConnection env s = (.ok (some r), s', tr) ∧
       s'.publicKey.isSome = true ∧ s'.connectedWalletType.isSome = true) := by
  unfold checkExistingConnection checkEthExisting
  repeat' split
  all_goals first
    | exact Or.inl ⟨_, rfl⟩
    | exact Or.inr (Or.inl ⟨_, _, rfl⟩)
    | exact Or.inr (Or.inr (Or.inl ⟨_, _, rfl⟩))
    | exact Or.inr (Or.inr (Or.inr ⟨_, _, _, rfl, rfl, rfl⟩))

theorem checkExistingConnection_some_inv (env : Env) (s : WalletState)
    (r : String × String × String)
    (h : (checkExistingConnection env s).1 = .ok (some r)) :
    stateInv (checkExistingConnection env s).2.1 := by
  rcases checkExistingConnection_cases env s with ⟨tr, hc⟩ | ⟨e, tr, hc⟩ |
    ⟨a, tr, hc⟩ | ⟨r2, s', tr, hc, h1, h2⟩
  · rw [hc] at h; cases h
  · rw [hc] at h; cases h
  · rw [hc] at h; cases h
  · rw [hc]; unfold stateInv; rw [h1, h2]



/-- Claim C1 counterexample: with a MetaMask provider exposing a selected
address on chain 56, `checkExistingConnection` adopts no session (returns
`none`) yet leaves `publicKey` set with `connectedWalletType` still null,
breaking the account-iff-provider invariant. -/
theorem checkExistingWrongChainBreaksInv :
    (checkExistingConnection envMetaMaskWrongChain initialState).1 = .ok none ∧
    (checkExistingConnection envMetaMaskWrongChain initialState).2.1.publicKey =
      some "0xeA54572eBA790E31f97e1D6f941D7427276688C3" ∧
    (checkExistingConnection envMetaMaskWrongChain initialState).2.1.connectedWalletType
      = none ∧
    ¬ stateInv (checkExistingConnection envMetaMaskWrongChain initialState).2.1 := by
  decide

/-- Claim C1 (amended): `connect` preserves the account-iff-provider
invariant, `disconnect` establishes it, and `checkExistingConnection`
establishes it whenever it adopts a session (returns a non-null result);
only a `checkExistingConnection` call that returns null can break it, by
writing `publicKey` for an Ethereum provider on an unexpected chain. -/
theorem accountAndProviderSetTogether :
    (∀ w env τ s, stateInv s → stateInv (connect w env τ s).2.1) ∧
    (∀ s, stateInv (disconnect s)) ∧
    (∀ env s r, (checkExistingConnection env s).1 = .ok (some r) →
      stateInv (checkExistingConnection env s).2.1) :=
  ⟨connect_inv, fun _ => rfl,
   fun env s r h => checkExistingConnection_some_inv env s r h⟩

/-- Witness for the amended C1 theorem at concrete inputs. -/
theorem accountAndProviderSetTogetherWitness :
    stateInv (connect "MetaMask" envNoProviders (fun _ => envNoProviders) initialState).2.1 ∧
    stateInv (disconnect initialState) ∧
    stateInv (checkExistingConnection envPhantomTrusted initialState).2.1 :=
  ⟨accountAndProviderSetTogether.1 "MetaMask" envNoProviders
      (fun _ => envNoProviders) initialState (by decide),
   accountAndProviderSetTogether.2.1 initialState,
   accountAndProviderSetTogether.2.2 envPhantomTrusted initialState
     ("PhantomKey1111111111111111111111111111111111", "Solana", "Phantom") (by decide)⟩



/-- Claim C4 counterexample: on a mobile device with no MetaMask provider
ever injected, `connect` takes the deep-link path and rejects with
`connectTimeout`, not with the provider-not-detected kind — so the claim
does not hold regardless of mobile or desktop. -/
theorem mobileNoProviderTimesOutNotDetected :
    (connect "MetaMask" envMobileNoProviders (fun _ => envMobileNoProviders)
        initialState).1 = .error .connectTimeout ∧
    ConnectError.connectTimeout ≠ .extensionNotDetected "MetaMask" := by
  decide

/-- Claim C4 (amended): on a non-mobile device, when no matching injected
provider exists (`hasWalletExtension` is false), `connect` — called while
online with no connect in flight — fails with exactly the
extension-not-detected error, for every wallet choice. -/
theorem connectNoProviderNotDetectedDesktop (w : String) (env : Env) (τ : Nat → Env)
    (s : WalletState) (h1 : s.connecting = false) (h2 : env.onLine = true)
    (h3 : env.isMobile = false) (h4 : hasWalletExtension env w = false) :
    (connect w env τ s).1 = .error (.extensionNotDetected w) := by
  simp [connect, h1, h2, h3, h4]

/-- Witness for the amended C4 theorem at a concrete desktop environment. -/
theorem connectNoProviderNotDetectedDesktopWitness :
    (connect "Phantom" envNoProviders (fun _ => envNoProviders) initialState).1 =
      .error (.extensionNotDetected "Phantom") :=
  connectNoProviderNotDetectedDesktop "Phantom" envNoProviders
    (fun _ => envNoProviders) initialState rfl rfl rfl rfl

/-- Claim C5: a `connect` call made while another is in flight
(`connecting = true`) fails immediately with the already-connecting error
and returns the state untouched, so the in-flight call's eventual outcome
is unaffected. -/
theorem connectWhileConnectingRejected (w : String) (env : Env) (τ : Nat → Env)
    (s : WalletState) (h : s.connecting = true) :
    connect w env τ s = (.error .alreadyConnecting, s, 0) := by
  simp [connect, h]

/-- Witness for C5 at a concrete in-flight state. -/
theorem connectWhileConnectingRejectedWitness :
    connect "Phantom" envBothProviders (fun _ => envBothProviders)
        { initialState with connecting := true } =
      (.error .alreadyConnecting, { initialState with connecting := true }, 0) :=
  connectWhileConnectingRejected "Phantom" envBothProviders
    (fun _ => envBothProviders) { initialState with connecting := true } rfl

/-- Claim C7: on the mobile deep-link path (mobile device, no extension,
deep link configured), when the provider never becomes available at any
poll tick, `connect` rejects with `connectTimeout` and settles exactly at
the 30-second timeout — at or after 30 seconds, never before. -/
theorem mobilePollTimeoutAtThirty (w : String) (env : Env) (τ : Nat → Env)
    (s : WalletState) (h1 : s.connecting = false) (h2 : env.onLine = true)
    (h3 : env.isMobile = true) (h4 : hasWalletExtension env w = false)
    (h5 : (DEEP_LINKS w).isSome = true)
    (h6 : ∀ t, mobileProviderReady (τ t) w = false) :
    (connect w env τ s).1 = .error .connectTimeout ∧
    (connect w env τ s).2.2 = 30 ∧ 30 ≤ (connect w env τ s).2.2 := by
  rcases hd : DEEP_LINKS w with _ | d
  · rw [hd] at h5; cases h5
  · have hp := pollRun_never_ready w τ { s with connecting := true } h6 30 1
    refine ⟨?_, ?_, ?_⟩ <;> simp [connect, h1, h2, h3, h4, hd, hp]

/-- Witness for C7: a Phantom deep-link poll on a mobile device where the
provider never appears. -/
theorem mobilePollTimeoutAtThirtyWitness :
    (connect "Phantom" envMobileNoProviders (fun _ => envMobileNoProviders)
        initialState).1 = .error .connectTimeout ∧
    (connect "Phantom" envMobileNoProviders (fun _ => envMobileNoProviders)
        initialState).2.2 = 30 ∧
    30 ≤ (connect "Phantom" envMobileNoProviders (fun _ => envMobileNoProviders)
        initialState).2.2 :=
  mobilePollTimeoutAtThirty "Phantom" envMobileNoProviders
    (fun _ => envMobileNoProviders) initialState rfl rfl rfl rfl rfl (fun _ => rfl)

/-- Claim C10: `connect` is atomic on failure — every run that returns an
error leaves `publicKey` and `connectedWalletType` exactly as they were
before the call, on every path (guards, desktop handshake, deep-link
polling). -/
theorem connectAtomicOnFailure (w : String) (env : Env) (τ : Nat → Env)
    (s : WalletState) (e : ConnectError) (st : WalletState) (n : Nat)
    (h : connect w env τ s = (.error e, st, n)) :
    st.publicKey = s.publicKey ∧ st.connectedWalletType = s.connectedWalletType := by
  have he : (connect w env τ s).1 = .error e := by rw [h]
  have hst : (connect w env τ s).2.1 = st := by rw [h]
  have hf := connect_error_fields w env τ s e he
  rw [hst] at hf
  exact hf

/-- Witness for C10: a failing run (offline guard) leaves the fields
unchanged. -/
theorem connectAtomicOnFailureWitness :
    initialState.publicKey = initialState.publicKey ∧
    initialState.connectedWalletType = initialState.connectedWalletType :=
  connectAtomicOnFailure "MetaMask" envOffline (fun _ => envOffline) initialState
    .offline initialState 0 (by decide)



theorem phantomLamports_half : phantomLamports (2⁻¹ : ℚ) = 500000000 := by
  norm_num [phantomLamports, LAMPORTS_PER_SOL]

theorem phantomLamports_zero : phantomLamports 0 = 0 := by
  norm_num [phantomLamports, LAMPORTS_PER_SOL]

theorem parseEther_tenth : parseEther "0.1" = some 100000000000000000 := by decide

/-- Claim C2: the amount conversions are exact — on the Solana path amount
0.5 puts 500000000 lamports into the transfer instruction, and on the
Ethereum path amount 0.1 (stringified by the source) puts
100000000000000000 wei into the request handed to the signer. -/
theorem minorUnitConversionExact :
    (∀ env pk, env.solanaPresent = true →
      (boostWithPhantom env (1 / 2 : ℚ) pk).2 =
        some { fromPubkey := pk, toPubkey := BOOST_ADDRESS_solana,
               lamports := 500000000 }) ∧
    (∀ env, env.ethereumPresent = true →
      (boostWithMetaMask env "0.1").2 =
        some { toAddr := BOOST_ADDRESS_ethereum, value := 100000000000000000,
               gasLimit := 21000 }) := by
  constructor
  · intro env pk h
    unfold boostWithPhantom
    rw [h]
    simp only [Bool.not_true, Bool.false_eq_true, if_false]
    rcases env.blockhash with e | bh
    · simp [phantomLamports_half]
    rcases env.signTx with e2 | u
    · simp [phantomLamports_half]
    rcases env.sendTx with e3 | sig
    · simp [phantomLamports_half]
    rcases env.confirmRes with e4 | opt
    · simp [phantomLamports_half]
    rcases opt with _ | err <;> simp [phantomLamports_half]
  · intro env h
    unfold boostWithMetaMask
    rw [h, parseEther_tenth]
    simp only [Bool.not_true, Bool.false_eq_true, if_false]
    rcases env.sendTxRes with e | txh
    · simp
    rcases env.waitRes with e2 | rh <;> simp

/-- Witness for C2 at fully successful concrete oracles. -/
theorem minorUnitConversionExactWitness :
    (boostWithPhantom solTxOkEnv (1 / 2 : ℚ)
        "Sender11111111111111111111111111111111111111").2 =
      some { fromPubkey := "Sender11111111111111111111111111111111111111",
             toPubkey := BOOST_ADDRESS_solana, lamports := 500000000 } ∧
    (boostWithMetaMask ethTxOkEnv "0.1").2 =
      some { toAddr := BOOST_ADDRESS_ethereum, value := 100000000000000000,
             gasLimit := 21000 } :=
  ⟨minorUnitConversionExact.1 solTxOkEnv
      "Sender11111111111111111111111111111111111111" rfl,
   minorUnitConversionExact.2 ethTxOkEnv rfl⟩



/-- Claim C3: whenever the network confirmation reports an error object,
the Solana-path transfer rejects with the transaction-failed error and the
stringified provider detail is contained in the message; it does not
resolve with a signature. -/
theorem confirmErrorRejectsWithDetail (env : SolTxEnv) (amount : ℚ)
    (pk bh sig err : String) (lvbh : Nat)
    (h1 : env.solanaPresent = true) (h2 : env.blockhash = .ok (bh, lvbh))
    (h3 : env.signTx = .ok ()) (h4 : env.sendTx = .ok sig)
    (h5 : env.confirmRes = .ok (some err)) :
    (boostWithPhantom env amount pk).1 = .error ("Transaction failed: " ++ err) ∧
    ∃ pre post, "Transaction failed: " ++ err = pre ++ err ++ post := by
  constructor
  · simp [boostWithPhantom, h1, h2, h3, h4, h5]
  · exact ⟨"Transaction failed: ", "", by simp⟩

/-- Witness for C3 at a concrete confirmation-error oracle. -/
theorem confirmErrorRejectsWithDetailWitness :
    (boostWithPhantom solTxConfirmErrEnv (1 / 2 : ℚ)
        "Sender11111111111111111111111111111111111111").1 =
      .error ("Transaction failed: " ++ "InstructionError: custom program error 1") ∧
    ∃ pre post, "Transaction failed: " ++ "InstructionError: custom program error 1" =
      pre ++ "InstructionError: custom program error 1" ++ post :=
  confirmErrorRejectsWithDetail solTxConfirmErrEnv (1 / 2)
    "Sender11111111111111111111111111111111111111"
    "Blockhash1111111111111111111111111111111111"
    "Signature11111111111111111111111111111111111"
    "InstructionError: custom program error 1" 1000 rfl rfl rfl rfl rfl

/-- Claim C6 (the code violates it): `boostWithPhantom` performs no amount
validation — with the non-positive amount 0 and a provider that confirms,
it builds a 0-lamport transfer instruction, submits it, and resolves with
the signature instead of rejecting with a validation error. -/
theorem zeroAmountIsSubmittedNotRejected :
    (boostWithPhantom solTxOkEnv 0
        "Sender11111111111111111111111111111111111111").1 =
      .ok "Signature11111111111111111111111111111111111" ∧
    (boostWithPhantom solTxOkEnv 0
        "Sender11111111111111111111111111111111111111").2 =
      some { fromPubkey := "Sender11111111111111111111111111111111111111",
             toPubkey := BOOST_ADDRESS_solana, lamports := 0 } := by
  constructor <;> simp [boostWithPhantom, solTxOkEnv, phantomLamports_zero]

/-- Claim C8: registering the account-change observer twice is a no-op the
second time, and a genuine account change then fires the callback exactly
once per provider event, not twice. -/
theorem registerObserverIdempotent (env : Env) (s : WalletState)
    (accounts : List String) (newKey : Option String)
    (h : s.listenersSetup = false) :
    (setupEventListeners env (setupEventListeners env s ⟨0, 0⟩).1
        (setupEventListeners env s ⟨0, 0⟩).2 = setupEventListeners env s ⟨0, 0⟩) ∧
    (env.ethereum.isSome = true →
      accounts.head?.map (fun a => a.toLower) ≠ s.publicKey.map (fun a => a.toLower) →
      ethAccountsChangedFirings (setupEventListeners env s ⟨0, 0⟩).1
        (setupEventListeners env s ⟨0, 0⟩).2 accounts = 1) ∧
    (env.solana.isSome = true → newKey ≠ s.publicKey →
      solAccountChangedFirings (setupEventListeners env s ⟨0, 0⟩).1
        (setupEventListeners env s ⟨0, 0⟩).2 newKey = 1) := by
  refine ⟨?_, ?_, ?_⟩
  · simp [setupEventListeners, h]
  · intro he hch
    by_cases hs2 : env.solana.isSome = true <;>
      simp [setupEventListeners, h, ethAccountsChangedFirings, he, hch, hs2]
  · intro hs hch
    by_cases he2 : env.ethereum.isSome = true <;>
      simp [setupEventListeners, h, solAccountChangedFirings, hs, hch, he2]

/-- Witness for C8: both providers present, fresh manager state, a genuine
account change on each provider. -/
theorem registerObserverIdempotentWitness :
    (setupEventListeners envBothProviders
        (setupEventListeners envBothProviders initialState ⟨0, 0⟩).1
        (setupEventListeners envBothProviders initialState ⟨0, 0⟩).2 =
      setupEventListeners envBothProviders initialState ⟨0, 0⟩) ∧
    ethAccountsChangedFirings
        (setupEventListeners envBothProviders initialState ⟨0, 0⟩).1
        (setupEventListeners envBothProviders initialState ⟨0, 0⟩).2
        ["0xNewAccount"] = 1 ∧
    solAccountChangedFirings
        (setupEventListeners envBothProviders initialState ⟨0, 0⟩).1
        (setupEventListeners envBothProviders initialState ⟨0, 0⟩).2
        (some "NewPhantomKey111111111111111111111111111111") = 1 := by
  have hr := registerObserverIdempotent envBothProviders initialState
    ["0xNewAccount"] (some "NewPhantomKey111111111111111111111111111111") rfl
  exact ⟨hr.1, hr.2.1 rfl (by decide), hr.2.2 rfl (by decide)⟩

/-- Claim C9: `checkExistingConnection` issues only non-prompting provider
calls (the trusted-only Solana connect and a network read), and when no
trusted session exists it returns `none` instead of throwing. -/
theorem checkExistingNeverPrompts (env : Env) (s : WalletState) :
    ((checkExistingConnection env s).2.2.all fun c => !(promptsUser c)) = true ∧
    (hasTrustedSession env = false → (checkExistingConnection env s).1 = .ok none) :=
  ⟨checkExistingConnection_no_prompt env s,
   fun h => checkExistingConnection_none env s h⟩

/-- Witness for C9 at an environment with no providers at all. -/
theorem checkExistingNeverPromptsWitness :
    ((checkExistingConnection envNoProviders initialState).2.2.all
        fun c => !(promptsUser c)) = true ∧
    (checkExistingConnection envNoProviders initialState).1 = .ok none :=
  ⟨(checkExistingNeverPrompts envNoProviders initialState).1,
   (checkExistingNeverPrompts envNoProviders initialState).2 (by decide)⟩


end VolumeBoost
